import Mathlib

/-!
Verification of the SEO content quality engine
(`streamlit_app/utils/features.py` and `streamlit_app/utils/scorer.py`).

Python strings are modelled as `List Char`, Python floats/ints flowing through
the arithmetic as `ℚ` (the composite-score arithmetic only divides by the
fixed positive constants 2000, 100, 50 and 6, so rational arithmetic is exact),
and exceptions as `Except String`.  External libraries (nltk sentence
tokenizer, textstat Flesch formula, the sklearn TF-IDF vectorizer, the
sentence-transformer encoder and numpy sqrt) are parameters of the embedded
functions: each is an arbitrary function of the shape the library contract
gives it.
-/

/-- Feature record built by `extract_basic_features` and consumed by the
scorer: the four numeric fields, in the fixed order the model was trained on. -/
structure FeatureSet where
  word_count : ℚ
  sentence_count : ℚ
  flesch_reading_ease : ℚ
  avg_word_length : ℚ
deriving DecidableEq

/-- Embeds `scorer.is_thin_content`: `word_count < threshold`, default 500. -/
def is_thin_content (word_count : ℤ) (threshold : ℤ := 500) : Bool :=
  decide (word_count < threshold)

/-- Embeds `scorer.calculate_composite_score`: four capped, weighted
components summed and clamped to at most 100. -/
def calculate_composite_score (features : FeatureSet) : ℚ :=
  let word_count := features.word_count
  let sentence_count := features.sentence_count
  let flesch := features.flesch_reading_ease
  let avg_word_length := features.avg_word_length
  let word_score := min (word_count / 2000) 1 * 30
  let readability_score := min (max flesch 0 / 100) 1 * 40
  let sentence_score := min (sentence_count / 50) 1 * 20
  let word_length_score := min (avg_word_length / 6) 1 * 10
  let total := word_score + readability_score + sentence_score + word_length_score
  min total 100

lemma score_term_nonneg (x d c : ℚ) (hx : 0 ≤ x) (hd : 0 ≤ d) (hc : 0 ≤ c) :
    0 ≤ min (x / d) 1 * c :=
  mul_nonneg (le_min (div_nonneg hx hd) zero_le_one) hc

lemma score_term_le (x d c : ℚ) (hc : 0 ≤ c) : min (x / d) 1 * c ≤ c := by
  have h := mul_le_mul_of_nonneg_right (min_le_right (x / d) 1) hc
  simpa using h

lemma score_term_mono (x y d c : ℚ) (hd : 0 < d) (hc : 0 ≤ c) (hxy : x ≤ y) :
    min (x / d) 1 * c ≤ min (y / d) 1 * c := by
  gcongr

/-- Claim C9: `is_thin_content` returns true exactly when
`word_count < threshold`; with the default threshold 500 the boundary is
exclusive: 499 is thin, 500 is not. -/
theorem is_thin_content_spec :
    (∀ wc th : ℤ, is_thin_content wc th = decide (wc < th)) ∧
    is_thin_content 499 = true ∧ is_thin_content 500 = false :=
  ⟨fun _ _ => rfl, by decide, by decide⟩

/-- Claim C6: the composite score is exactly 100 on the cap-saturating input
(2000 words, 50 sentences, flesch 100, average word length 6) and exactly 0
on the all-zero input. -/
theorem calculate_composite_score_extremes :
    calculate_composite_score ⟨2000, 50, 100, 6⟩ = 100 ∧
    calculate_composite_score ⟨0, 0, 0, 0⟩ = 0 := by
  constructor <;> norm_num [calculate_composite_score]

/-- Claim C1: with nonnegative word count, sentence count and average word
length (flesch arbitrary), the composite score lies in [0, 100], and it is
monotone: raising any of the four inputs (jointly, hence also each one
individually with the others fixed) does not decrease the score. -/
theorem calculate_composite_score_mono_bounded (f g : FeatureSet)
    (hw : 0 ≤ f.word_count) (hs : 0 ≤ f.sentence_count)
    (ha : 0 ≤ f.avg_word_length)
    (hwg : f.word_count ≤ g.word_count)
    (hsg : f.sentence_count ≤ g.sentence_count)
    (hfg : f.flesch_reading_ease ≤ g.flesch_reading_ease)
    (hag : f.avg_word_length ≤ g.avg_word_length) :
    (0 ≤ calculate_composite_score f ∧ calculate_composite_score f ≤ 100) ∧
    calculate_composite_score f ≤ calculate_composite_score g := by
  have hterm1 := score_term_nonneg f.word_count 2000 30 hw (by norm_num) (by norm_num)
  have hterm2 := score_term_nonneg (max f.flesch_reading_ease 0) 100 40
    (le_max_right _ _) (by norm_num) (by norm_num)
  have hterm3 := score_term_nonneg f.sentence_count 50 20 hs (by norm_num) (by norm_num)
  have hterm4 := score_term_nonneg f.avg_word_length 6 10 ha (by norm_num) (by norm_num)
  refine ⟨⟨?_, ?_⟩, ?_⟩
  · simp only [calculate_composite_score]
    exact le_min (by linarith) (by norm_num)
  · simp only [calculate_composite_score]
    exact min_le_right _ _
  · simp only [calculate_composite_score]
    refine min_le_min (add_le_add (add_le_add (add_le_add ?_ ?_) ?_) ?_) le_rfl
    · exact score_term_mono _ _ _ _ (by norm_num) (by norm_num) hwg
    · exact score_term_mono _ _ _ _ (by norm_num) (by norm_num)
        (max_le_max hfg le_rfl)
    · exact score_term_mono _ _ _ _ (by norm_num) (by norm_num) hsg
    · exact score_term_mono _ _ _ _ (by norm_num) (by norm_num) hag

/-- Witness for C1 at the concrete pair (0,0,0,0) ≤ (1,1,1,1). -/
theorem calculate_composite_score_mono_bounded_witness :
    (0 ≤ calculate_composite_score ⟨0, 0, 0, 0⟩ ∧
      calculate_composite_score ⟨0, 0, 0, 0⟩ ≤ 100) ∧
    calculate_composite_score ⟨0, 0, 0, 0⟩ ≤ calculate_composite_score ⟨1, 1, 1, 1⟩ :=
  calculate_composite_score_mono_bounded ⟨0, 0, 0, 0⟩ ⟨1, 1, 1, 1⟩
    (by norm_num) (by norm_num) (by norm_num)
    (by norm_num) (by norm_num) (by norm_num) (by norm_num)

/-- Recommendation messages appended by `get_quality_score_interpretation`,
one constructor per distinct message template, carrying the value the
message cites. -/
inductive Recommendation where
  | increaseLength (word_count : ℚ)
  | considerExpanding (word_count : ℚ)
  | simplifyLanguage (flesch : ℚ)
  | improveReadability (flesch : ℚ)
  | reviewStructure
  | focusUserIntent
deriving DecidableEq

/-- Result record of `get_quality_score_interpretation`. -/
structure Interpretation where
  emoji : String
  message : String
  description : String
  recommendations : List Recommendation
deriving DecidableEq

/-- Word-count recommendation rules (the two branches of the first
if/elif chain in `get_quality_score_interpretation`). -/
def wordCountRecs (word_count : ℚ) : List Recommendation :=
  if word_count < 500 then [Recommendation.increaseLength word_count]
  else if word_count < 1500 then [Recommendation.considerExpanding word_count]
  else []

/-- Flesch recommendation rules (the second if/elif chain). -/
def fleschRecs (flesch : ℚ) : List Recommendation :=
  if flesch < 30 then [Recommendation.simplifyLanguage flesch]
  else if flesch < 50 then [Recommendation.improveReadability flesch]
  else []

/-- Low-label recommendation rule (the final `if quality == 'Low'` block). -/
def lowLabelRecs (quality : String) : List Recommendation :=
  if quality = "Low" then [Recommendation.reviewStructure, Recommendation.focusUserIntent]
  else []

/-- Embeds `scorer.get_quality_score_interpretation`: base template selected
by label (`dict.get` falling back to the Unknown template), then the
recommendation rules appended in their fixed source order. -/
def get_quality_score_interpretation (quality : String) (features : FeatureSet) :
    Interpretation :=
  let word_count := features.word_count
  let flesch := features.flesch_reading_ease
  let base : Interpretation :=
    if quality = "High" then
      ⟨"🟢", "Excellent content quality!",
        "This content has strong indicators of high quality with good length and readability.", []⟩
    else if quality = "Medium" then
      ⟨"🟡", "Good content, but room for improvement",
        "This content meets basic quality standards but could be enhanced.", []⟩
    else if quality = "Low" then
      ⟨"🔴", "Content needs significant improvement",
        "This content falls short of quality standards.", []⟩
    else
      ⟨"⚪", "Unable to assess quality", "Quality assessment unavailable.", []⟩
  let recommendations :=
    (if word_count < 500 then [Recommendation.increaseLength word_count]
     else if word_count < 1500 then [Recommendation.considerExpanding word_count]
     else [])
    ++ (if flesch < 30 then [Recommendation.simplifyLanguage flesch]
        else if flesch < 50 then [Recommendation.improveReadability flesch]
        else [])
    ++ (if quality = "Low" then
          [Recommendation.reviewStructure, Recommendation.focusUserIntent]
        else [])
  { base with recommendations := recommendations }

/-- True on the two word-count recommendation messages. -/
def isLengthRec : Recommendation → Bool
  | Recommendation.increaseLength _ => true
  | Recommendation.considerExpanding _ => true
  | _ => false

/-- True on the two flesch recommendation messages. -/
def isReadabilityRec : Recommendation → Bool
  | Recommendation.simplifyLanguage _ => true
  | Recommendation.improveReadability _ => true
  | _ => false

/-- Claim C4: the recommendation list is always the word-count rules, then the
flesch rules, then the Low-label rules; at most one word-count message and at
most one flesch message ever appear (the if/elif pairs are mutually
exclusive); and on word_count=100, flesch=20, label Low the list is exactly
[length-increase, readability-simplify, the two Low messages] in that order. -/
theorem get_quality_score_interpretation_rec_order :
    (∀ (q : String) (f : FeatureSet),
      (get_quality_score_interpretation q f).recommendations =
        wordCountRecs f.word_count ++ fleschRecs f.flesch_reading_ease ++ lowLabelRecs q) ∧
    (∀ (q : String) (f : FeatureSet),
      ((get_quality_score_interpretation q f).recommendations.filter isLengthRec).length ≤ 1) ∧
    (∀ (q : String) (f : FeatureSet),
      ((get_quality_score_interpretation q f).recommendations.filter isReadabilityRec).length ≤ 1) ∧
    (get_quality_score_interpretation "Low" ⟨100, 0, 20, 0⟩).recommendations =
      [Recommendation.increaseLength 100, Recommendation.simplifyLanguage 20,
        Recommendation.reviewStructure, Recommendation.focusUserIntent] := by
  have hsplit : ∀ (q : String) (f : FeatureSet),
      (get_quality_score_interpretation q f).recommendations =
        wordCountRecs f.word_count ++ fleschRecs f.flesch_reading_ease ++ lowLabelRecs q := by
    intro q f
    simp only [get_quality_score_interpretation, wordCountRecs, fleschRecs, lowLabelRecs]
  refine ⟨hsplit, ?_, ?_, ?_⟩
  · intro q f
    rw [hsplit q f]
    simp only [List.filter_append, List.length_append]
    have h1 : (List.filter isLengthRec (wordCountRecs f.word_count)).length ≤ 1 := by
      simp only [wordCountRecs]
      split <;> [skip; split] <;> simp [isLengthRec]
    have h2 : (List.filter isLengthRec (fleschRecs f.flesch_reading_ease)).length = 0 := by
      simp only [fleschRecs]
      split <;> [skip; split] <;> simp [isLengthRec]
    have h3 : (List.filter isLengthRec (lowLabelRecs q)).length = 0 := by
      simp only [lowLabelRecs]
      split <;> simp [isLengthRec]
    omega
  · intro q f
    rw [hsplit q f]
    simp only [List.filter_append, List.length_append]
    have h1 : (List.filter isReadabilityRec (wordCountRecs f.word_count)).length = 0 := by
      simp only [wordCountRecs]
      split <;> [skip; split] <;> simp [isReadabilityRec]
    have h2 : (List.filter isReadabilityRec (fleschRecs f.flesch_reading_ease)).length ≤ 1 := by
      simp only [fleschRecs]
      split <;> [skip; split] <;> simp [isReadabilityRec]
    have h3 : (List.filter isReadabilityRec (lowLabelRecs q)).length = 0 := by
      simp only [lowLabelRecs]
      split <;> simp [isReadabilityRec]
    omega
  · norm_num [get_quality_score_interpretation]

/-- Claim C10: any label other than High, Medium, Low, Unknown produces the
Unknown template (emoji, message, description), with the recommendations
still computed from the word-count and flesch thresholds and without the
Low-specific messages. -/
theorem get_quality_score_interpretation_unknown_fallback (q : String) (f : FeatureSet)
    (h1 : q ≠ "High") (h2 : q ≠ "Medium") (h3 : q ≠ "Low") (h4 : q ≠ "Unknown") :
    (get_quality_score_interpretation q f).emoji = "⚪" ∧
    (get_quality_score_interpretation q f).message = "Unable to assess quality" ∧
    (get_quality_score_interpretation q f).description = "Quality assessment unavailable." ∧
    (get_quality_score_interpretation q f).recommendations =
      wordCountRecs f.word_count ++ fleschRecs f.flesch_reading_ease := by
  simp only [get_quality_score_interpretation, wordCountRecs, fleschRecs,
    if_neg h1, if_neg h2, if_neg h3]
  simp

/-- Witness for C10 at the concrete label "Fnord" and all-zero features. -/
theorem get_quality_score_interpretation_unknown_fallback_witness :
    (get_quality_score_interpretation "Fnord" ⟨0, 0, 0, 0⟩).emoji = "⚪" ∧
    (get_quality_score_interpretation "Fnord" ⟨0, 0, 0, 0⟩).message = "Unable to assess quality" ∧
    (get_quality_score_interpretation "Fnord" ⟨0, 0, 0, 0⟩).description = "Quality assessment unavailable." ∧
    (get_quality_score_interpretation "Fnord" ⟨0, 0, 0, 0⟩).recommendations =
      wordCountRecs (0 : ℚ) ++ fleschRecs (0 : ℚ) :=
  get_quality_score_interpretation_unknown_fallback "Fnord" ⟨0, 0, 0, 0⟩
    (by decide) (by decide) (by decide) (by decide)

/-- Accumulator version of Python `str.split()` (split on whitespace runs,
dropping empty tokens): `acc` holds the reversed current token. -/
def pySplitAux : List Char → List Char → List (List Char)
  | acc, [] => if acc = [] then [] else [acc.reverse]
  | acc, c :: cs =>
    if c.isWhitespace then
      if acc = [] then pySplitAux [] cs else acc.reverse :: pySplitAux [] cs
    else pySplitAux (c :: acc) cs

/-- Python `s.split()` with no separator: whitespace-delimited tokens,
empties dropped. -/
def pySplit (s : List Char) : List (List Char) := pySplitAux [] s

/-- Collapses every run of whitespace to a single space, as
`re.sub(r'\s+', ' ', text)` does; the flag records whether the previous
character was part of a whitespace run. -/
def collapseWsAux : Bool → List Char → List Char
  | _, [] => []
  | prevWs, c :: cs =>
    if c.isWhitespace then
      if prevWs then collapseWsAux true cs else ' ' :: collapseWsAux true cs
    else c :: collapseWsAux false cs

/-- Whitespace-run collapse entry point. -/
def collapseWs (s : List Char) : List Char := collapseWsAux false s

/-- Python `str.strip()`: drop leading and trailing whitespace. -/
def pyStrip (s : List Char) : List Char :=
  ((s.dropWhile Char.isWhitespace).reverse.dropWhile Char.isWhitespace).reverse

/-- Embeds `features.clean_text`: lowercase, collapse whitespace runs to a
single space, strip. -/
def clean_text (text : List Char) : List Char :=
  pyStrip (collapseWs (text.map Char.toLower))

/-- Embeds `features.extract_basic_features`. The nltk sentence tokenizer and
the textstat Flesch formula are external libraries, passed in as arbitrary
functions `sentTok` and `fleschFn`; the source guards both behind
`if clean` so they are only consulted on nonempty normalized text. -/
def extract_basic_features (sentTok : List Char → ℕ) (fleschFn : List Char → ℚ)
    (text : List Char) : FeatureSet :=
  let clean := clean_text text
  let word_count : ℚ := ((pySplit clean).length : ℚ)
  let sentence_count : ℚ := if clean = [] then 0 else (sentTok clean : ℚ)
  let flesch_score : ℚ := if clean = [] then 0 else fleschFn clean
  let words := pySplit clean
  let avg_word_length : ℚ :=
    if words = [] then 0
    else (words.map (fun w => (w.length : ℚ))).sum / (words.length : ℚ)
  ⟨word_count, sentence_count, flesch_score, avg_word_length⟩

lemma pySplitAux_ne_nil_of_acc (s : List Char) :
    ∀ acc : List Char, acc ≠ [] → pySplitAux acc s ≠ [] := by
  induction s with
  | nil =>
    intro acc h
    simp only [pySplitAux, if_neg h]
    exact List.cons_ne_nil _ _
  | cons a as ih =>
    intro acc h
    by_cases ha : a.isWhitespace
    · simp only [pySplitAux, if_pos ha, if_neg h]
      exact List.cons_ne_nil _ _
    · simp only [pySplitAux, if_neg ha]
      exact ih (a :: acc) (List.cons_ne_nil _ _)

lemma pySplitAux_ne_nil_of_mem (s : List Char) :
    ∀ acc : List Char, ∀ c ∈ s, ¬ c.isWhitespace → pySplitAux acc s ≠ [] := by
  induction s with
  | nil => intro _ c hc; exact absurd hc (List.not_mem_nil c)
  | cons a as ih =>
    intro acc c hc hw
    by_cases ha : a.isWhitespace
    · have hcas : c ∈ as := by
        rcases List.mem_cons.mp hc with h | h
        · exact absurd (h ▸ ha) hw
        · exact h
      simp only [pySplitAux, if_pos ha]
      by_cases hacc : acc = []
      · simp only [if_pos hacc]
        exact ih [] c hcas hw
      · simp only [if_neg hacc]
        exact List.cons_ne_nil _ _
    · simp only [pySplitAux, if_neg ha]
      exact pySplitAux_ne_nil_of_acc as (a :: acc) (List.cons_ne_nil _ _)

lemma all_ws_of_pySplit_eq_nil (s : List Char) (h : pySplit s = []) :
    ∀ c ∈ s, c.isWhitespace := by
  intro c hc
  by_contra hw
  exact pySplitAux_ne_nil_of_mem s [] c hc hw h

lemma pyStrip_eq_nil_of_all_ws (s : List Char)
    (h : ∀ c ∈ pyStrip s, c.isWhitespace) : pyStrip s = [] := by
  by_cases hne : (s.dropWhile Char.isWhitespace).reverse.dropWhile Char.isWhitespace = []
  · simp [pyStrip, hne]
  · exfalso
    have hhead := List.head_dropWhile_not Char.isWhitespace
      (s.dropWhile Char.isWhitespace).reverse hne
    have hmem : ((s.dropWhile Char.isWhitespace).reverse.dropWhile
        Char.isWhitespace).head hne ∈ pyStrip s := by
      simp only [pyStrip, List.mem_reverse]
      exact List.head_mem hne
    have hws := h _ hmem
    simp [hws] at hhead

/-- Claim C5: `word_count` is the number of whitespace-delimited tokens of
the normalized text, `len(clean_text(t).split())`. -/
theorem extract_basic_features_word_count_spec (sentTok : List Char → ℕ)
    (fleschFn : List Char → ℚ) (t : List Char) :
    (extract_basic_features sentTok fleschFn t).word_count =
      ((pySplit (clean_text t)).length : ℚ) := rfl

/-- Claim C3: whenever `extract_basic_features` reports zero words, the same
result has zero sentences, zero average word length and zero Flesch score:
the normalized text is empty and the zeros are assigned by the guards, the
tokenizer and formula never consulted. -/
theorem extract_basic_features_zero_words (sentTok : List Char → ℕ)
    (fleschFn : List Char → ℚ) (t : List Char)
    (h : (extract_basic_features sentTok fleschFn t).word_count = 0) :
    (extract_basic_features sentTok fleschFn t).sentence_count = 0 ∧
    (extract_basic_features sentTok fleschFn t).avg_word_length = 0 ∧
    (extract_basic_features sentTok fleschFn t).flesch_reading_ease = 0 := by
  simp only [extract_basic_features] at h
  have hlen : (pySplit (clean_text t)).length = 0 := by exact_mod_cast h
  have hnil : pySplit (clean_text t) = [] := List.length_eq_zero.mp hlen
  have hclean : clean_text t = [] := by
    have hall := all_ws_of_pySplit_eq_nil _ hnil
    exact pyStrip_eq_nil_of_all_ws (collapseWs ((t.map Char.toLower))) hall
  refine ⟨?_, ?_, ?_⟩ <;> simp [extract_basic_features, hclean, pySplit, pySplitAux]

/-- Witness for C3 on the whitespace-only text consisting of one space. -/
theorem extract_basic_features_zero_words_witness :
    (extract_basic_features (fun _ => 7) (fun _ => 7) [' ']).word_count = 0 ∧
    ((extract_basic_features (fun _ => 7) (fun _ => 7) [' ']).sentence_count = 0 ∧
      (extract_basic_features (fun _ => 7) (fun _ => 7) [' ']).avg_word_length = 0 ∧
      (extract_basic_features (fun _ => 7) (fun _ => 7) [' ']).flesch_reading_ease = 0) :=
  ⟨by decide, extract_basic_features_zero_words (fun _ => 7) (fun _ => 7) [' '] (by decide)⟩

/-- Dot product of two embedding vectors, entrywise product summed
(the numerator of sklearn cosine similarity). -/
def dotList (a b : List ℚ) : ℚ := (List.zipWith (fun x y => x * y) a b).sum

/-- Cosine similarity of two vectors as sklearn computes it,
`dot(a, b) / (norm(a) * norm(b))`, with the floating-point square root
modelled by the parameter `sqrtFn` applied to the squared norms. -/
def cosine_similarity (sqrtFn : ℚ → ℚ) (a b : List ℚ) : ℚ :=
  dotList a b / (sqrtFn (dotList a a) * sqrtFn (dotList b b))

/-- Embeds `features.generate_embeddings`: normalize every text (empty texts
pass through as the empty string) and encode each with the sentence
transformer, modelled by the parameter `encode`. -/
def generate_embeddings (encode : List Char → List ℚ) (texts : List (List Char)) :
    List (List ℚ) :=
  (texts.map (fun t => if t = [] then [] else clean_text t)).map encode

/-- Embeds `features.calculate_similarity`: embed the pair and return the
cosine similarity of the two embeddings. -/
def calculate_similarity (encode : List Char → List ℚ) (sqrtFn : ℚ → ℚ)
    (text1 text2 : List Char) : ℚ :=
  cosine_similarity sqrtFn
    ((generate_embeddings encode [text1, text2]).getD 0 [])
    ((generate_embeddings encode [text1, text2]).getD 1 [])

lemma dotList_comm (a b : List ℚ) : dotList a b = dotList b a := by
  simp only [dotList]
  rw [List.zipWith_comm_of_comm _ mul_comm]

/-- Claim C8: `calculate_similarity` is symmetric in its two texts, for every
choice of encoder and square-root function. -/
theorem calculate_similarity_symm (encode : List Char → List ℚ) (sqrtFn : ℚ → ℚ)
    (t1 t2 : List Char) :
    calculate_similarity encode sqrtFn t1 t2 = calculate_similarity encode sqrtFn t2 t1 := by
  simp only [calculate_similarity, generate_embeddings, List.map_cons, List.map_nil,
    List.getD_cons_zero, List.getD_cons_succ]
  simp only [cosine_similarity]
  rw [dotList_comm, mul_comm]

/-- Pipe-joined keyword string, `"|".join(keywords)`. -/
def pipeJoin (ws : List (List Char)) : List Char := List.intercalate ['|'] ws

/-- Index selection `doc_vector.argsort()[-top_n:][::-1]`: indices sorted by
ascending TF-IDF weight, then the largest `top_n` in descending order.
numpy argsort leaves the order of equal weights unspecified; `mergeSort` is
one deterministic choice of that tie-break. -/
def topIndices (row : List ℚ) (top_n : ℕ) : List ℕ :=
  (((List.range row.length).mergeSort
    (fun i j => decide (row.getD i 0 ≤ row.getD j 0))).reverse).take top_n

/-- Embeds `features.extract_keywords`. The sklearn TF-IDF vectorizer is the
parameter `tfidf`, taking the cleaned documents to either an exception
(`fit_transform` failing, e.g. empty vocabulary) or the dense matrix of
per-document weight rows together with the vectorizer's feature names. -/
def extract_keywords
    (tfidf : List (List Char) → Except String (List (List ℚ) × List (List Char)))
    (texts : List (List Char)) (top_n : ℕ := 5) : List (List Char) :=
  if texts = [] ∨ ∀ t ∈ texts, t = [] then List.replicate texts.length []
  else
    match tfidf (texts.map (fun t => if t = [] then [] else clean_text t)) with
    | Except.error _ => List.replicate texts.length []
    | Except.ok (rows, feature_names) =>
      rows.map (fun row =>
        pipeJoin (((topIndices row top_n).filter
          (fun i => decide (0 < row.getD i 0))).map
            (fun i => feature_names.getD i [])))

/-- Claim C7: `extract_keywords` always returns exactly one keyword string
per input document (the vectorizer contract gives one matrix row per
document), and when the vectorizer raises it degrades to the empty string
for every document; the function itself never raises. -/
theorem extract_keywords_total_shape
    (tfidf tfidfF : List (List Char) → Except String (List (List ℚ) × List (List Char)))
    (texts : List (List Char)) (n : ℕ)
    (hlen : ∀ ds rows names, tfidf ds = Except.ok (rows, names) → rows.length = ds.length)
    (hfail : ∀ ds, tfidfF ds = Except.error "empty vocabulary") :
    (extract_keywords tfidf texts n).length = texts.length ∧
    extract_keywords tfidfF texts n = List.replicate texts.length [] := by
  constructor
  · simp only [extract_keywords]
    split
    · simp
    · split
      · simp
      · rename_i rows feature_names heq
        rw [List.length_map]
        rw [hlen _ _ _ heq, List.length_map]
  · simp only [extract_keywords]
    split
    · rfl
    · rw [hfail]

/-- Witness for C7 on a single one-character document, with a vectorizer
returning one empty row per document and a vectorizer that always raises. -/
theorem extract_keywords_total_shape_witness :
    (extract_keywords
      (fun ds => Except.ok (ds.map (fun _ => ([] : List ℚ)), ([] : List (List Char))))
      [['a']] 5).length = [['a']].length ∧
    extract_keywords (fun _ => Except.error "empty vocabulary") [['a']] 5 =
      List.replicate [['a']].length [] :=
  extract_keywords_total_shape
    (fun ds => Except.ok (ds.map (fun _ => ([] : List ℚ)), ([] : List (List Char))))
    (fun _ => Except.error "empty vocabulary") [['a']] 5
    (fun ds rows names h => by
      injection h with h2
      simp only [Prod.mk.injEq] at h2
      obtain ⟨h3, -⟩ := h2
      rw [← h3]
      exact List.length_map ds _)
    (fun _ => rfl)

/-- Outcome of `joblib.load` on the model artifact: the artifact loads, the
file is missing (`FileNotFoundError`), or loading fails with some other
exception (corrupt artifact, e.g. an unpickling error). The model itself is
the sklearn `predict` call on the 4-feature vector, returning either a label
or an exception. -/
inductive LoadOutcome where
  | loaded (model : List ℚ → Except String String)
  | fileNotFound
  | loadError (e : String)

/-- Embeds `scorer.load_quality_model`: the `try` block catches only
`FileNotFoundError` (returning `None`); any other load exception is not
caught and propagates. -/
def load_quality_model : LoadOutcome → Except String (Option (List ℚ → Except String String))
  | LoadOutcome.loaded m => Except.ok (some m)
  | LoadOutcome.fileNotFound => Except.ok none
  | LoadOutcome.loadError e => Except.error e

/-- Feature vector built by `predict_quality`, in the fixed training order
word_count, sentence_count, flesch_reading_ease, avg_word_length. -/
def featureVector (features : FeatureSet) : List ℚ :=
  [features.word_count, features.sentence_count, features.flesch_reading_ease,
    features.avg_word_length]

/-- Embeds `scorer.predict_quality`: a `None` model (file not found) yields
"Unknown"; the model call is wrapped in `try ... except Exception`, mapping
any prediction exception to "Unknown"; the `load_quality_model()` call
itself is unguarded, so a load exception propagates. -/
def predict_quality (outcome : LoadOutcome) (features : FeatureSet) :
    Except String String :=
  match load_quality_model outcome with
  | Except.error e => Except.error e
  | Except.ok none => Except.ok "Unknown"
  | Except.ok (some model) =>
    match model (featureVector features) with
    | Except.ok prediction => Except.ok prediction
    | Except.error _ => Except.ok "Unknown"

/-- Counterexample to C2 as stated: with a corrupt model artifact (a load
failure that is not `FileNotFoundError`), `predict_quality` propagates the
exception to its caller instead of returning "Unknown". -/
theorem predict_quality_corrupt_counterexample :
    predict_quality (LoadOutcome.loadError "corrupt artifact") ⟨0, 0, 0, 0⟩ =
      Except.error "corrupt artifact" := rfl

/-- Claim C2 amended: when the model artifact is merely missing (the caught
`FileNotFoundError` case) `predict_quality` returns "Unknown" on every call,
and any exception raised during the model's prediction is caught and mapped
to "Unknown"; only a load failure other than file-not-found escapes. -/
theorem predict_quality_degrades (m : List ℚ → Except String String)
    (f g : FeatureSet) (e : String)
    (hpred : m (featureVector g) = Except.error e) :
    predict_quality LoadOutcome.fileNotFound f = Except.ok "Unknown" ∧
    predict_quality (LoadOutcome.loaded m) g = Except.ok "Unknown" := by
  constructor
  · rfl
  · simp only [predict_quality, load_quality_model, hpred]

/-- Witness for the amended C2 with a model that always raises. -/
theorem predict_quality_degrades_witness :
    predict_quality LoadOutcome.fileNotFound ⟨0, 0, 0, 0⟩ = Except.ok "Unknown" ∧
    predict_quality (LoadOutcome.loaded (fun _ => Except.error "bad vector")) ⟨1, 2, 3, 4⟩ =
      Except.ok "Unknown" :=
  predict_quality_degrades (fun _ => Except.error "bad vector") ⟨0, 0, 0, 0⟩ ⟨1, 2, 3, 4⟩
    "bad vector" rfl
